import Mathlib

/-!
Shallow embedding of the synthetic audio-mixture corpus generator and loader
implemented in src/DataLoader.py.

Waveforms are lists of signed integers.  The Python standard-library and
numpy random sources are modelled by an abstract bounded random generator
(`RandF`) whose state is threaded explicitly; `random.shuffle` is embedded
as the Fisher-Yates loop it performs, driven by that generator.  Fallible
numpy operations (`np.pad` with a possibly negative width) return `Option`,
and the snapshot loader returns `Except` carrying the error message that the
raised `FileNotFoundError` carries in the source.
-/

/-- A single-channel waveform: an ordered sequence of signed integer samples
(`Recording` in the spec). -/
abbrev Rec := List Int

/-- An abstract bounded random source: given a bound `n` and a generator
state, return a value (intended below `n`) and the successor state.  Models
`random._randbelow` / the numpy permutation source. -/
abbrev RandF := Nat → Nat → Nat × Nat

/-- Class constant `DataLoader.min_speakers = 2`. -/
def min_speakers : Nat := 2

/-- Class constant `DataLoader.max_speakers = 20`. -/
def max_speakers : Nat := 20

/-- Class constant `DataLoader.sampled_at = 16000`. -/
def sampled_at : Nat := 16000

/-- Class constant `DataLoader.pad_to = sampled_at * 5`. -/
def pad_to : Nat := sampled_at * 5

/-- Swap the elements at positions `i` and `j` of a list
(`x[i], x[j] = x[j], x[i]` inside `random.shuffle`). -/
def listSwap (l : List α) (i j : Nat) : List α :=
  match l.get? i, l.get? j with
  | some a, some b => (l.set i b).set j a
  | _, _ => l

/-- The Fisher-Yates loop of `random.shuffle`: for the current index `i`
counting down from `len - 1` to `1`, draw `j` below `i + 1` and swap
positions `i` and `j`.  The first argument is the current index. -/
def fyLoop (R : RandF) : Nat → List α → Nat → List α × Nat
  | 0, l, rng => (l, rng)
  | i + 1, l, rng =>
    let jr := R (i + 2) rng
    fyLoop R i (listSwap l (i + 1) jr.1) jr.2

/-- `random.shuffle(l)`: in-place Fisher-Yates permutation of `l`, returning
the permuted list and the advanced generator state. -/
def pyShuffle (R : RandF) (l : List α) (rng : Nat) : List α × Nat :=
  fyLoop R (l.length - 1) l rng

/-- Python slice `l[i : i + n]`. -/
def pySlice (l : List α) (i n : Nat) : List α := (l.drop i).take n

/-- The partition list built in `__create_concurrent_speakers`:
`[train[i:i+num_speakers] for i in range(0, num_records*num_speakers, num_speakers)]`. -/
def partitionsOf (train : List Rec) (num_speakers num_records : Nat) : List (List Rec) :=
  (List.range num_records).map fun j => pySlice train (j * num_speakers) num_speakers

/-- Length of the longest member of a partition:
`len(max(partition, key=len))` (0 for the empty list, which the source never
reaches). -/
def maxLen : List Rec → Nat
  | [] => 0
  | x :: xs => max x.length (maxLen xs)

/-- `np.pad(x, (0, w))` for a signed width `w`: numpy raises on a negative
width, modelled by `none`; otherwise the waveform is right-zero-padded. -/
def padRecI (x : Rec) (w : Int) : Option Rec :=
  if w < 0 then none else some (x ++ List.replicate w.toNat 0)

/-- The padding loop of `__create_concurrent_speakers`:
`[np.pad(x, (0, pad_to - len(x))) for x in partition]` where `pad_to` is the
longest member's length.  Fails if any width were negative. -/
def paddedMixture (p : List Rec) : Option (List Rec) :=
  p.mapM fun x => padRecI x ((maxLen p : Int) - (x.length : Int))

/-- Total description of the same padding step: every member right-padded
with zeros to the longest member's length. -/
def padAll (p : List Rec) : List Rec :=
  p.map fun x => x ++ List.replicate (maxLen p - x.length) 0

/-- `DataLoader.__create_concurrent_speakers`: optionally shuffle the shared
recording list in place, slice it into `num_records` partitions of
`num_speakers` members, pad each partition and stack it as one mixture file.
Returns the bucket of written mixture files (channel lists), the mutated
recording list and the advanced generator state. -/
def create_concurrent_speakers (R : RandF) (train : List Rec)
    (num_speakers num_records : Nat) (shuffle : Bool) (rng : Nat) :
    Option (List (List Rec)) × List Rec × Nat :=
  let sr := if shuffle then pyShuffle R train rng else (train, rng)
  ((partitionsOf sr.1 num_speakers num_records).mapM paddedMixture, sr.1, sr.2)

/-- The speaker counts `range(min_speakers, max_speakers + 1)` iterated by
`__generate_datasets`. -/
def bucketRange (minS maxS : Nat) : List Nat := List.range' minS (maxS + 1 - minS)

/-- The per-split loop of `__generate_datasets`: one
`__create_concurrent_speakers` call per speaker count, threading the mutable
recording list and the generator state through the calls. -/
def genSplitAux (R : RandF) (num_records : Nat) (shuffle : Bool) :
    List Nat → List Rec → Nat → List (Nat × Option (List (List Rec))) × List Rec × Nat
  | [], data, rng => ([], data, rng)
  | k :: ks, data, rng =>
    let step := create_concurrent_speakers R data k num_records shuffle rng
    let rest := genSplitAux R num_records shuffle ks step.2.1 step.2.2
    ((k, step.1) :: rest.1, rest.2)

/-- Generation of one split: `num_records_per_count = len(files) // max_speakers`,
then every bucket in `[minS, maxS]` in order.  Returns the assoc list of
buckets keyed by speaker count, the final recording list and generator state. -/
def generate_split (R : RandF) (minS maxS : Nat) (files : List Rec)
    (shuffle : Bool) (rng : Nat) :
    List (Nat × Option (List (List Rec))) × List Rec × Nat :=
  genSplitAux R (files.length / maxS) shuffle (bucketRange minS maxS) files rng

/-- `DataLoader.__generate_datasets`: the train split is generated with
shuffling enabled, then the test split with shuffling disabled, threading the
generator state. -/
def generate_datasets (R : RandF) (minS maxS : Nat)
    (trainFiles testFiles : List Rec) (rng : Nat) :
    List (Nat × Option (List (List Rec))) × List (Nat × Option (List (List Rec))) × Nat :=
  let tr := generate_split R minS maxS trainFiles true rng
  let te := generate_split R minS maxS testFiles false tr.2.2
  (tr.1, te.1, te.2.2)

/-- Iterate `random.shuffle` `n` times on the same (mutated-in-place) list,
threading the generator state. -/
def shuffleIter (R : RandF) : Nat → List Rec → Nat → List Rec × Nat
  | 0, l, rng => (l, rng)
  | n + 1, l, rng =>
    let s := pyShuffle R l rng
    shuffleIter R n s.1 s.2

/-- Sample-wise sum of two waveforms, the shorter treated as zero-extended. -/
def addRec : Rec → Rec → Rec
  | [], ys => ys
  | x :: xs, [] => x :: xs
  | x :: xs, y :: ys => (x + y) :: addRec xs ys

/-- `np.sum(record, axis=1)`: reduce a multi-channel mixture to mono by
summing the channels sample-wise. -/
def sumChannels (channels : List Rec) : Rec := channels.foldl addRec []

/-- `np.pad(x, (0, max(pad_to - len(x), 0)))[:pad_to]`: right-zero-pad to
`n` samples if shorter, truncate to `n` if longer. -/
def fitTo (x : Rec) (n : Nat) : Rec := (x ++ List.replicate (n - x.length) 0).take n

/-- The bucket-walking loop of `__load_datasets` for one split: for each
speaker count, sum every mixture file of that bucket to mono and pair it with
label `k`; extend the running feature and label lists. -/
def load_buckets (buckets : Nat → List (List Rec)) : List Nat → List Rec × List Nat
  | [] => ([], [])
  | k :: ks =>
    let cur_x := (buckets k).map sumChannels
    let cur_y := (buckets k).map fun _ => k
    let rest := load_buckets buckets ks
    (cur_x ++ rest.1, cur_y ++ rest.2)

/-- One split of `__load_datasets` before shuffling: walk the buckets in
`[minS, maxS]`, then pad-and-cut every feature row to `padTo` samples. -/
def load_split (b : Nat → List (List Rec)) (minS maxS padTo : Nat) :
    List Rec × List Nat :=
  let raw := load_buckets b (bucketRange minS maxS)
  (raw.1.map fun x => fitTo x padTo, raw.2)

/-- Reorder a list by a list of indices (the permutation drawn by
`sklearn.utils.shuffle`, applied to features and labels alike). -/
def applyPerm (perm : List Nat) (xs : List α) : List α :=
  perm.filterMap fun i => xs.get? i

/-- The index permutation `sklearn.utils.shuffle` draws from the random
source for a split of `n` rows. -/
def permOfSeed (R : RandF) (n rng : Nat) : List Nat × Nat :=
  pyShuffle R (List.range n) rng

/-- `DataLoader.__load_datasets`: load both splits from the generated layout,
pad-and-cut, then shuffle each split label-aligned with a permutation drawn
from the explicit random source.  Returns `(train_x, train_y, test_x, test_y)`
and the advanced generator state. -/
def load_datasets (R : RandF) (tb sb : Nat → List (List Rec))
    (minS maxS padTo rng : Nat) :
    (List Rec × List Nat × List Rec × List Nat) × Nat :=
  let tr := load_split tb minS maxS padTo
  let te := load_split sb minS maxS padTo
  let pT := permOfSeed R tr.1.length rng
  let pS := permOfSeed R te.1.length pT.2
  ((applyPerm pT.1 tr.1, applyPerm pT.1 tr.2, applyPerm pS.1 te.1, applyPerm pS.1 te.2), pS.2)

/-- A Python value returned by `load_data`: either a numpy array or the
result of applying `tuple` to one (the snapshot path returns
`map(tuple, [...])`).  1-D integer arrays are embedded as single-column
row lists. -/
inductive PyObj where
  | ndarray (data : List (List Int))
  | pytuple (data : List (List Int))
deriving DecidableEq

/-- The configuration flags consulted by `load_data`: the `force_recreate`
argument and the `load_from_file` / `save_to_file` class attributes. -/
structure Config where
  force_recreate : Bool
  load_from_file : Bool
  save_to_file : Bool
deriving DecidableEq

/-- The four snapshot artifacts (`train_x.npy`, `train_y.npy`, `test_x.npy`,
`test_y.npy`): each present with an array payload, or absent. -/
structure SnapFS where
  train_x : Option (List (List Int))
  train_y : Option (List (List Int))
  test_x : Option (List (List Int))
  test_y : Option (List (List Int))
deriving DecidableEq

/-- The filesystem and source state `load_data` observes: snapshot artifacts,
existence of the two generated destination directories, the generated layout
content (buckets keyed by speaker count, per split) and the source
recordings of each split. -/
structure Env where
  snap : SnapFS
  train_dest_exists : Bool
  test_dest_exists : Bool
  trainLayout : Nat → List (List Rec)
  testLayout : Nat → List (List Rec)
  trainSrc : List Rec
  testSrc : List Rec

/-- The externally visible steps `load_data` can take, in order. -/
inductive Step where
  | generate
  | snapshotLoad
  | loaderPass
  | snapshotSave
deriving DecidableEq

/-- `DataLoader.__load_from_file`: check the four artifacts in the order
`train_x`, `train_y`, `test_x`, `test_y`; raise `FileNotFoundError(filename)`
at the first absent one; otherwise return `map(tuple, [the four arrays])`. -/
def load_from_file (fs : SnapFS) : Except String (List PyObj) :=
  match fs.train_x with
  | none => Except.error "train_x.npy"
  | some a =>
    match fs.train_y with
    | none => Except.error "train_y.npy"
    | some b =>
      match fs.test_x with
      | none => Except.error "test_x.npy"
      | some c =>
        match fs.test_y with
        | none => Except.error "test_y.npy"
        | some d => Except.ok [PyObj.pytuple a, PyObj.pytuple b, PyObj.pytuple c, PyObj.pytuple d]

/-- The filename of the first absent snapshot artifact in the order the
loading loop checks them, if any. -/
def firstMissing (fs : SnapFS) : Option String :=
  if fs.train_x.isNone then some "train_x.npy"
  else if fs.train_y.isNone then some "train_y.npy"
  else if fs.test_x.isNone then some "test_x.npy"
  else if fs.test_y.isNone then some "test_y.npy"
  else none

/-- Whether `s` is the filename of a snapshot artifact that is absent from
`fs` (the error message of the snapshot loader must name such a file). -/
def artifactAbsent (fs : SnapFS) (s : String) : Bool :=
  (s == "train_x.npy" && fs.train_x.isNone) || (s == "train_y.npy" && fs.train_y.isNone) ||
    (s == "test_x.npy" && fs.test_x.isNone) || (s == "test_y.npy" && fs.test_y.isNone)

/-- Embed a 1-D label array as a single-column 2-D array. -/
def encodeLabels (ys : List Nat) : List (List Int) := ys.map fun k => [(k : Int)]

/-- Package the loader pass result as the four numpy arrays `load_data`
returns on that path. -/
def toPyObjs (r : List Rec × List Nat × List Rec × List Nat) : List PyObj :=
  [PyObj.ndarray r.1, PyObj.ndarray (encodeLabels r.2.1),
   PyObj.ndarray r.2.2.1, PyObj.ndarray (encodeLabels r.2.2.2)]

/-- Read one bucket of a generated split layout: the bucket's mixture files,
or no files when the bucket directory is absent. -/
def bucketsOf (out : List (Nat × Option (List (List Rec)))) (k : Nat) : List (List Rec) :=
  match out.lookup k with
  | some (some l) => l
  | _ => []

/-- `DataLoader.__generate_datasets` as a filesystem effect: regenerate both
splits' layouts from the source recordings and mark both destination
directories as existing.  The snapshot artifacts are untouched. -/
def regen (R : RandF) (env : Env) (rng : Nat) : Env × Nat :=
  let g := generate_datasets R min_speakers max_speakers env.trainSrc env.testSrc rng
  ({ env with
      train_dest_exists := true
      test_dest_exists := true
      trainLayout := bucketsOf g.1
      testLayout := bucketsOf g.2.1 }, g.2.2)

/-- `DataLoader.load_data`: if `force_recreate`, regenerate; if
`load_from_file`, return the snapshot load; otherwise regenerate when either
destination directory is absent and run the loader pass (saving a snapshot
afterwards when `save_to_file`).  Returns the result together with the trace
of steps taken.  `rngPy` seeds the `random` module used during generation,
`rngNp` the numpy source used by the loader shuffle. -/
def load_data (R : RandF) (cfg : Config) (env : Env) (rngPy rngNp : Nat) :
    Except String (List PyObj) × List Step :=
  let s1 : Env × Nat × List Step :=
    if cfg.force_recreate then
      let r := regen R env rngPy
      (r.1, r.2, [Step.generate])
    else (env, rngPy, [])
  if cfg.load_from_file then
    (load_from_file s1.1.snap, s1.2.2 ++ [Step.snapshotLoad])
  else
    let s2 : Env × Nat × List Step :=
      if s1.1.train_dest_exists && s1.1.test_dest_exists then s1
      else
        let r := regen R s1.1 s1.2.1
        (r.1, r.2, s1.2.2 ++ [Step.generate])
    let res := load_datasets R s2.1.trainLayout s2.1.testLayout min_speakers max_speakers pad_to rngNp
    (Except.ok (toPyObjs res.1),
     s2.2.2 ++ [Step.loaderPass] ++ if cfg.save_to_file then [Step.snapshotSave] else [])

/-- A concrete deterministic random source used for concrete evaluations:
value `state % bound`, successor state `state + 1`. -/
def R0 : RandF := fun n s => (s % n, s + 1)

/-- Three one-sample recordings, enough for buckets of 2 and 3 speakers. -/
def files3 : List Rec := [[0], [1], [2]]

/-- A snapshot filesystem with all four artifacts present. -/
def snapFull : SnapFS :=
  { train_x := some [[1]], train_y := some [[2]], test_x := some [[3]], test_y := some [[4]] }

/-- A snapshot filesystem whose test artifacts are absent. -/
def snapNoTest : SnapFS :=
  { train_x := some [[1]], train_y := some [[2]], test_x := none, test_y := none }

/-- An environment with every artifact and directory present and empty
layouts and sources. -/
def envFull : Env :=
  { snap := snapFull
    train_dest_exists := true
    test_dest_exists := true
    trainLayout := fun _ => []
    testLayout := fun _ => []
    trainSrc := []
    testSrc := [] }

/-- `envFull` with the test snapshot artifacts absent. -/
def envNoTest : Env :=
  { envFull with snap := snapNoTest }

/-- A tiny generated layout: bucket 2 holds one two-channel mixture, bucket 3
holds one three-channel mixture, all other buckets are empty. -/
def b0 : Nat → List (List Rec) :=
  fun k =>
    if k = 2 then [[[1, 2], [3]]]
    else if k = 3 then [[[1], [2], [4, 5]]]
    else []

/-- Four recordings of unequal lengths, enough for two partitions of two
speakers each. -/
def train4 : List Rec := [[1, 2], [3], [4], [5, 6, 7]]

/-! ## Basic facts about the embedded primitives -/

theorem listSwap_length (l : List α) (i j : Nat) : (listSwap l i j).length = l.length := by
  unfold listSwap
  cases h1 : l.get? i <;> cases h2 : l.get? j <;> simp [List.length_set]

theorem fyLoop_length (R : RandF) (i : Nat) :
    ∀ (l : List α) (rng : Nat), ((fyLoop R i l rng).1).length = l.length := by
  induction i with
  | zero => intro l rng; rfl
  | succ n ih =>
    intro l rng
    simp only [fyLoop]
    rw [ih]
    exact listSwap_length l (n + 1) _

theorem pyShuffle_length (R : RandF) (l : List α) (rng : Nat) :
    ((pyShuffle R l rng).1).length = l.length :=
  fyLoop_length R (l.length - 1) l rng

theorem le_maxLen {q : List Rec} {x : Rec} (hx : x ∈ q) : x.length ≤ maxLen q := by
  induction q with
  | nil => simp at hx
  | cons y ys ih =>
    rcases List.mem_cons.mp hx with h | h
    · subst h; simp [maxLen]
    · exact le_trans (ih h) (by simp [maxLen])

theorem maxLen_le (q : List Rec) (c : Nat) (h : ∀ x ∈ q, x.length ≤ c) : maxLen q ≤ c := by
  induction q with
  | nil => simp [maxLen]
  | cons x xs ih =>
    simp only [maxLen]
    exact max_le (h x (by simp)) (ih fun y hy => h y (by simp [hy]))

theorem mapM_eq_map_of_some {α β : Type} (f : α → Option β) (g : α → β) :
    ∀ l : List α, (∀ a ∈ l, f a = some (g a)) → l.mapM f = some (l.map g) := by
  intro l
  induction l with
  | nil => intro _; rfl
  | cons a t ih =>
    intro h
    rw [List.mapM_cons, h a (by simp), ih fun x hx => h x (by simp [hx])]
    rfl

theorem paddedMixture_eq (p : List Rec) : paddedMixture p = some (padAll p) := by
  unfold paddedMixture padAll
  apply mapM_eq_map_of_some
  intro x hx
  have hle : x.length ≤ maxLen p := le_maxLen hx
  have ht : ((maxLen p : Int) - (x.length : Int)).toNat = maxLen p - x.length := by omega
  simp only [padRecI]
  rw [if_neg (by omega), ht]

theorem padAll_eq_self (q : List Rec) (c : Nat) (h : ∀ x ∈ q, x.length = c) : padAll q = q := by
  have hm : maxLen q ≤ c := maxLen_le q c fun x hx => le_of_eq (h x hx)
  unfold padAll
  have hid : ∀ x ∈ q, x ++ List.replicate (maxLen q - x.length) 0 = x := by
    intro x hx
    have hc := h x hx
    have hz : maxLen q - x.length = 0 := by omega
    rw [hz]
    simp
  calc q.map (fun x => x ++ List.replicate (maxLen q - x.length) 0)
      = q.map id := List.map_congr_left hid
    _ = q := List.map_id q

theorem partitionsOf_length (t : List Rec) (k n : Nat) : (partitionsOf t k n).length = n := by
  simp [partitionsOf]

theorem fitTo_length (x : Rec) (n : Nat) : (fitTo x n).length = n := by
  simp only [fitTo, List.length_take, List.length_append, List.length_replicate]
  omega

theorem range'_get?_eq : ∀ (n s j k : Nat), (List.range' s n).get? j = some k → k = s + j := by
  intro n
  induction n with
  | zero => intro s j k h; simp [List.range'] at h
  | succ m ih =>
    intro s j k h
    rw [List.range'_succ] at h
    cases j with
    | zero =>
      simp only [List.get?_cons_zero, Option.some.injEq] at h
      omega
    | succ j2 =>
      rw [List.get?_cons_succ] at h
      have := ih (s + 1) j2 k h
      omega

/-! ## Structure of the generation pass -/

theorem create_snd (R : RandF) (t : List Rec) (k n : Nat) (sh : Bool) (rng : Nat) :
    (create_concurrent_speakers R t k n sh rng).2 =
      if sh then pyShuffle R t rng else (t, rng) := rfl

theorem create_fst (R : RandF) (t : List Rec) (k n : Nat) (sh : Bool) (rng : Nat) :
    (create_concurrent_speakers R t k n sh rng).1 =
      some ((partitionsOf (create_concurrent_speakers R t k n sh rng).2.1 k n).map padAll) := by
  unfold create_concurrent_speakers
  exact mapM_eq_map_of_some _ _ _ fun p _ => paddedMixture_eq p

theorem create_data_length (R : RandF) (t : List Rec) (k n : Nat) (sh : Bool) (rng : Nat) :
    ((create_concurrent_speakers R t k n sh rng).2.1).length = t.length := by
  rw [create_snd]
  cases sh
  · rfl
  · simp [pyShuffle_length]

theorem genSplitAux_mem (R : RandF) (nr : Nat) (sh : Bool) :
    ∀ (ks : List Nat) (data : List Rec) (rng : Nat) (k : Nat) (b : Option (List (List Rec))),
      (k, b) ∈ (genSplitAux R nr sh ks data rng).1 →
      ∃ d, b = some ((partitionsOf d k nr).map padAll) := by
  intro ks
  induction ks with
  | nil => intro data rng k b h; simp [genSplitAux] at h
  | cons k0 ks ih =>
    intro data rng k b h
    simp only [genSplitAux, List.mem_cons] at h
    rcases h with h | h
    · rw [Prod.mk.injEq] at h
      obtain ⟨hk, hb⟩ := h
      subst hk
      exact ⟨_, by rw [hb, create_fst]⟩
    · exact ih _ _ _ _ h

theorem genSplitAux_get?_true (R : RandF) (nr : Nat) :
    ∀ (ks : List Nat) (data : List Rec) (rng : Nat) (j : Nat),
      ((genSplitAux R nr true ks data rng).1).get? j =
        (ks.get? j).map fun k =>
          (k, some ((partitionsOf (shuffleIter R (j + 1) data rng).1 k nr).map padAll)) := by
  intro ks
  induction ks with
  | nil => intro data rng j; simp [genSplitAux]
  | cons k0 ks ih =>
    intro data rng j
    cases j with
    | zero =>
      simp only [genSplitAux, List.get?_cons_zero, Option.map_some']
      rw [create_fst]
      rfl
    | succ j2 =>
      simp only [genSplitAux, List.get?_cons_succ]
      rw [ih]
      rfl

theorem genSplitAux_false (R : RandF) (nr : Nat) :
    ∀ (ks : List Nat) (data : List Rec) (rng : Nat),
      genSplitAux R nr false ks data rng =
        (ks.map fun k => (k, some ((partitionsOf data k nr).map padAll)), data, rng) := by
  intro ks
  induction ks with
  | nil => intro data rng; rfl
  | cons k0 ks ih =>
    intro data rng
    simp only [genSplitAux, List.map_cons]
    rw [ih]
    rw [create_fst]
    rfl

/-! ## Structure of the loader pass -/

theorem load_buckets_zip (b : Nat → List (List Rec)) (padTo : Nat) :
    ∀ ks : List Nat,
      ((load_buckets b ks).1.map fun x => fitTo x padTo).zip (load_buckets b ks).2 =
        ks.flatMap fun k => (b k).map fun m => (fitTo (sumChannels m) padTo, k) := by
  intro ks
  induction ks with
  | nil => rfl
  | cons k ks ih =>
    simp only [load_buckets, List.flatMap_cons, List.map_append]
    rw [List.zip_append (by simp), ih]
    congr 1
    rw [List.map_map, List.zip_map']
    rfl

theorem load_split_zip (b : Nat → List (List Rec)) (minS maxS padTo : Nat) :
    (load_split b minS maxS padTo).1.zip (load_split b minS maxS padTo).2 =
      (bucketRange minS maxS).flatMap fun k => (b k).map fun m =>
        (fitTo (sumChannels m) padTo, k) :=
  load_buckets_zip b padTo (bucketRange minS maxS)

/-! ## Claim theorems: generation -/

/-- C9: for every member `x` of a partition, the pad width computed by the
Mixture Writer (longest member length minus `len(x)`) is non-negative, the
right-zero-pad succeeds with that width, and the padding step is total on the
whole partition. -/
theorem pad_width_nonneg (p : List Rec) (x : Rec) (hx : x ∈ p) :
    0 ≤ (maxLen p : Int) - (x.length : Int) ∧
    padRecI x ((maxLen p : Int) - (x.length : Int)) =
      some (x ++ List.replicate (maxLen p - x.length) 0) ∧
    paddedMixture p = some (padAll p) := by
  have hle : x.length ≤ maxLen p := le_maxLen hx
  refine ⟨by omega, ?_, paddedMixture_eq p⟩
  have ht : ((maxLen p : Int) - (x.length : Int)).toNat = maxLen p - x.length := by omega
  simp only [padRecI]
  rw [if_neg (by omega), ht]

theorem pad_width_nonneg_witness :
    ([3] : Rec) ∈ ([[1, 2], [3]] : List Rec) ∧
    0 ≤ (maxLen [[1, 2], [3]] : Int) - (([3] : Rec).length : Int) ∧
    padRecI [3] ((maxLen [[1, 2], [3]] : Int) - (([3] : Rec).length : Int)) =
      some ([3] ++ List.replicate (maxLen [[1, 2], [3]] - ([3] : Rec).length) 0) ∧
    paddedMixture [[1, 2], [3]] = some (padAll [[1, 2], [3]]) :=
  ⟨by decide, pad_width_nonneg [[1, 2], [3]] [3] (by decide)⟩

/-- C4: every bucket generated for a split holds exactly
`len(files) // max_speakers` mixture files; in particular when the split has
fewer recordings than `max_speakers` every bucket is empty and no error is
raised. -/
theorem mixture_files_per_bucket (R : RandF) (minS maxS : Nat) (files : List Rec)
    (sh : Bool) (rng : Nat) (k : Nat) (b : Option (List (List Rec)))
    (h : (k, b) ∈ (generate_split R minS maxS files sh rng).1) :
    ∃ l, b = some l ∧ l.length = files.length / maxS ∧ (files.length < maxS → l = []) := by
  obtain ⟨d, hb⟩ :=
    genSplitAux_mem R (files.length / maxS) sh (bucketRange minS maxS) files rng k b h
  refine ⟨(partitionsOf d k (files.length / maxS)).map padAll, hb, ?_, ?_⟩
  · simp [partitionsOf_length]
  · intro hlt
    rw [Nat.div_eq_of_lt hlt]
    simp [partitionsOf]

theorem mixture_files_per_bucket_witness :
    (2, some [[[0], [1]]]) ∈ (generate_split R0 2 3 files3 false 0).1 ∧
    ∃ l, (some [[[0], [1]]] : Option (List (List Rec))) = some l ∧
      l.length = files3.length / 3 ∧ (files3.length < 3 → l = []) :=
  ⟨by decide, mixture_files_per_bucket R0 2 3 files3 false 0 2 (some [[[0], [1]]]) (by decide)⟩

/-- C5: every mixture file written with target speaker count `k` has exactly
`k` channels; each channel is one of the `k` partitioned recordings
right-zero-padded, and every channel's length equals the maximum length
among the original recordings of its partition. -/
theorem mixture_file_channels (R : RandF) (train : List Rec) (k n : Nat) (sh : Bool)
    (rng : Nat) (hfit : n * k ≤ train.length) (mf : List Rec)
    (hmf : ∃ l, (create_concurrent_speakers R train k n sh rng).1 = some l ∧ mf ∈ l) :
    mf.length = k ∧
    ∃ j, j < n ∧
      mf = padAll (pySlice (create_concurrent_speakers R train k n sh rng).2.1 (j * k) k) ∧
      (pySlice (create_concurrent_speakers R train k n sh rng).2.1 (j * k) k).length = k ∧
      ∀ c ∈ mf, c.length =
        maxLen (pySlice (create_concurrent_speakers R train k n sh rng).2.1 (j * k) k) := by
  obtain ⟨l, hl, hmem⟩ := hmf
  rw [create_fst] at hl
  have hleq :
      l = (partitionsOf (create_concurrent_speakers R train k n sh rng).2.1 k n).map padAll :=
    (Option.some.inj hl).symm
  subst hleq
  rw [List.mem_map] at hmem
  obtain ⟨p, hp, hmf2⟩ := hmem
  subst hmf2
  unfold partitionsOf at hp
  rw [List.mem_map] at hp
  obtain ⟨j, hj, hp2⟩ := hp
  rw [List.mem_range] at hj
  subst hp2
  have hdlen : ((create_concurrent_speakers R train k n sh rng).2.1).length = train.length :=
    create_data_length R train k n sh rng
  have hmul : (j + 1) * k = j * k + k := by ring
  have hmul2 : (j + 1) * k ≤ n * k := Nat.mul_le_mul_right k (by omega)
  have hplen :
      (pySlice (create_concurrent_speakers R train k n sh rng).2.1 (j * k) k).length = k := by
    simp only [pySlice, List.length_take, List.length_drop, hdlen]
    omega
  refine ⟨?_, j, hj, rfl, hplen, ?_⟩
  · simp [padAll, hplen]
  · intro c hc
    unfold padAll at hc
    rw [List.mem_map] at hc
    obtain ⟨x, hx, hc2⟩ := hc
    subst hc2
    have := le_maxLen hx
    simp only [List.length_append, List.length_replicate]
    omega

theorem mixture_file_channels_witness :
    ([[1, 2], [3, 0]] : List Rec).length = 2 ∧
    ∃ j, j < 2 ∧
      ([[1, 2], [3, 0]] : List Rec) =
        padAll (pySlice (create_concurrent_speakers R0 train4 2 2 false 0).2.1 (j * 2) 2) ∧
      (pySlice (create_concurrent_speakers R0 train4 2 2 false 0).2.1 (j * 2) 2).length = 2 ∧
      ∀ c ∈ ([[1, 2], [3, 0]] : List Rec), c.length =
        maxLen (pySlice (create_concurrent_speakers R0 train4 2 2 false 0).2.1 (j * 2) 2) :=
  mixture_file_channels R0 train4 2 2 false 0 (by decide) [[1, 2], [3, 0]]
    ⟨[[[1, 2], [3, 0]], [[4, 0, 0], [5, 6, 7]]], by decide, by decide⟩

/-- C10: generation shuffles only the train split; the test split is always
partitioned with shuffling disabled, so its buckets are the same closed-form
function of the test source recordings for every random source and every
generator state. -/
theorem test_split_deterministic (R R2 : RandF) (minS maxS : Nat)
    (trainFiles testFiles : List Rec) (rng rng2 : Nat) :
    (generate_datasets R minS maxS trainFiles testFiles rng).1 =
      (generate_split R minS maxS trainFiles true rng).1 ∧
    (generate_datasets R minS maxS trainFiles testFiles rng).2.1 =
      (bucketRange minS maxS).map (fun k =>
        (k, some ((partitionsOf testFiles k (testFiles.length / maxS)).map padAll))) ∧
    (generate_datasets R minS maxS trainFiles testFiles rng).2.1 =
      (generate_datasets R2 minS maxS trainFiles testFiles rng2).2.1 := by
  have hform : ∀ (Rx : RandF) (r : Nat),
      (generate_split Rx minS maxS testFiles false r).1 =
        (bucketRange minS maxS).map fun k =>
          (k, some ((partitionsOf testFiles k (testFiles.length / maxS)).map padAll)) := by
    intro Rx r
    rw [generate_split, genSplitAux_false]
  refine ⟨rfl, hform R _, ?_⟩
  rw [show (generate_datasets R minS maxS trainFiles testFiles rng).2.1 =
      (generate_split R minS maxS testFiles false
        (generate_split R minS maxS trainFiles true rng).2.2).1 from rfl]
  rw [show (generate_datasets R2 minS maxS trainFiles testFiles rng2).2.1 =
      (generate_split R2 minS maxS testFiles false
        (generate_split R2 minS maxS trainFiles true rng2).2.2).1 from rfl]
  rw [hform R _, hform R2 _]

/-- C1 (claim as stated, refuted): with shuffling requested it is NOT the
case that one single permutation of the recording sequence, drawn before any
bucket is built, explains every bucket: at this concrete input no permutation
of the three recordings yields both the 2-speaker and the 3-speaker bucket,
because the sequence is re-shuffled before each bucket. -/
theorem shared_permutation_across_buckets_refuted :
    ¬ ∃ p : List Rec, p.Perm files3 ∧
        ∀ k b, (k, b) ∈ (generate_split R0 2 3 files3 true 1).1 →
          b = some ((partitionsOf p k (files3.length / 3)).map padAll) := by
  rintro ⟨p, hperm, hall⟩
  have hgen : (generate_split R0 2 3 files3 true 1).1 =
      [(2, some [[[2], [0]]]), (3, some [[[0], [1], [2]]])] := by decide
  have h2 := hall 2 (some [[[2], [0]]]) (by rw [hgen]; simp)
  have h3 := hall 3 (some [[[0], [1], [2]]]) (by rw [hgen]; simp)
  have hlen : files3.length / 3 = 1 := rfl
  rw [hlen] at h2 h3
  have hr1 : List.range 1 = [0] := rfl
  simp only [partitionsOf, hr1, List.map_cons, List.map_nil, Nat.zero_mul,
    pySlice, List.drop_zero] at h2 h3
  have hmem1 : ∀ x ∈ p, x.length = 1 := by
    intro x hx
    have hx2 : x ∈ files3 := hperm.subset hx
    simp only [files3, List.mem_cons, List.not_mem_nil, or_false] at hx2
    rcases hx2 with h | h | h <;> subst h <;> rfl
  have hpad2 : padAll (p.take 2) = p.take 2 :=
    padAll_eq_self _ 1 fun x hx => hmem1 x (List.take_subset 2 p hx)
  have hpad3 : padAll (p.take 3) = p.take 3 :=
    padAll_eq_self _ 1 fun x hx => hmem1 x (List.take_subset 3 p hx)
  rw [hpad2] at h2
  rw [hpad3] at h3
  have hp3 : p.take 3 = p := List.take_of_length_le (by rw [hperm.length_eq]; decide)
  rw [hp3] at h3
  simp only [Option.some.injEq, List.cons.injEq, and_true] at h2 h3
  subst h3
  exact absurd h2 (by decide)

/-- C1 (amended): with shuffling requested the recording sequence is
re-shuffled in place before each bucket is built; the bucket at position `j`
(speaker count `minS + j`) is partitioned from the sequence obtained by
applying the shuffle `j + 1` times in succession to the original sequence. -/
theorem buckets_use_successive_reshuffles (R : RandF) (minS maxS : Nat) (files : List Rec)
    (rng : Nat) (j k : Nat) (b : Option (List (List Rec)))
    (h : ((generate_split R minS maxS files true rng).1).get? j = some (k, b)) :
    k = minS + j ∧
    b = some ((partitionsOf (shuffleIter R (j + 1) files rng).1 k
      (files.length / maxS)).map padAll) := by
  rw [generate_split, genSplitAux_get?_true] at h
  cases hk : (bucketRange minS maxS).get? j with
  | none => rw [hk] at h; simp at h
  | some k0 =>
    rw [hk] at h
    simp only [Option.map_some', Option.some.injEq, Prod.mk.injEq] at h
    obtain ⟨hk1, hb⟩ := h
    have hk0 : k0 = minS + j := range'_get?_eq _ minS j k0 hk
    subst hk1
    exact ⟨hk0, hb.symm⟩

theorem buckets_use_successive_reshuffles_witness :
    ((generate_split R0 2 3 files3 true 1).1).get? 1 = some (3, some [[[0], [1], [2]]]) ∧
    3 = 2 + 1 ∧
    (some [[[0], [1], [2]]] : Option (List (List Rec))) =
      some ((partitionsOf (shuffleIter R0 2 files3 1).1 3 (files3.length / 3)).map padAll) :=
  ⟨by decide,
    buckets_use_successive_reshuffles R0 2 3 files3 1 1 3 (some [[[0], [1], [2]]]) (by decide)⟩

/-! ## Claim theorems: loader -/

/-- C6: every sample the Corpus Loader pairs with label `k` has waveform
length exactly `padTo` and is the channel-sum of a mixture file of bucket
`k`, padded or truncated to `padTo`; moreover the whole (feature, label)
pairing is exactly the bucket walk, so every sample loaded from bucket `k`
carries label `k`. -/
theorem loaded_sample_length_and_label (b : Nat → List (List Rec)) (minS maxS padTo : Nat)
    (x : Rec) (k : Nat)
    (hx : (x, k) ∈ (load_split b minS maxS padTo).1.zip (load_split b minS maxS padTo).2) :
    x.length = padTo ∧ (∃ m ∈ b k, x = fitTo (sumChannels m) padTo) ∧
    (load_split b minS maxS padTo).1.zip (load_split b minS maxS padTo).2 =
      (bucketRange minS maxS).flatMap fun k2 => (b k2).map fun m =>
        (fitTo (sumChannels m) padTo, k2) := by
  have hchar := load_split_zip b minS maxS padTo
  rw [hchar, List.mem_flatMap] at hx
  obtain ⟨k2, hk2, hx⟩ := hx
  rw [List.mem_map] at hx
  obtain ⟨m, hm, heq⟩ := hx
  rw [Prod.mk.injEq] at heq
  obtain ⟨hx1, hk⟩ := heq
  subst hk
  refine ⟨?_, ⟨m, hm, hx1.symm⟩, hchar⟩
  rw [← hx1]
  exact fitTo_length (sumChannels m) padTo

theorem loaded_sample_length_and_label_witness :
    ([4, 2, 0, 0, 0] : Rec).length = 5 ∧
    (∃ m ∈ b0 2, ([4, 2, 0, 0, 0] : Rec) = fitTo (sumChannels m) 5) ∧
    (load_split b0 2 3 5).1.zip (load_split b0 2 3 5).2 =
      (bucketRange 2 3).flatMap fun k2 => (b0 k2).map fun m => (fitTo (sumChannels m) 5, k2) :=
  loaded_sample_length_and_label b0 2 3 5 [4, 2, 0, 0, 0] 2 (by decide)

/-- C8: with the random source and its state made explicit, two loader
passes over the same generated layout with the same state are the same value,
and the shuffle applies one common permutation to the features and the labels
of each split (label-aligned), so the shuffled Dataset is a deterministic
function of the layout and the random state. -/
theorem loader_shuffle_deterministic (R : RandF) (tb sb : Nat → List (List Rec))
    (minS maxS padTo rng : Nat) :
    load_datasets R tb sb minS maxS padTo rng = load_datasets R tb sb minS maxS padTo rng ∧
    ∃ pT pS : List Nat,
      (load_datasets R tb sb minS maxS padTo rng).1 =
        (applyPerm pT (load_split tb minS maxS padTo).1,
         applyPerm pT (load_split tb minS maxS padTo).2,
         applyPerm pS (load_split sb minS maxS padTo).1,
         applyPerm pS (load_split sb minS maxS padTo).2) :=
  ⟨rfl, (permOfSeed R (load_split tb minS maxS padTo).1.length rng).1,
    (permOfSeed R (load_split sb minS maxS padTo).1.length
      (permOfSeed R (load_split tb minS maxS padTo).1.length rng).2).1, rfl⟩

/-! ## Claim theorems: orchestration -/

theorem firstMissing_error (fs : SnapFS) (s : String) (hs : firstMissing fs = some s) :
    artifactAbsent fs s = true ∧ load_from_file fs = Except.error s := by
  obtain ⟨a, b, c, d⟩ := fs
  cases a <;> cases b <;> cases c <;> cases d <;>
    simp_all [firstMissing, load_from_file, artifactAbsent]

/-- C7: the snapshot loader checks all four artifacts; whenever one is
absent it fails with an error naming a missing artifact's filename (the first
absent one in checking order), and `load_data` on the snapshot path returns
that error without falling back to the loader pass (and, absent
`force_recreate`, without any regeneration). -/
theorem snapshot_load_missing_artifact (R : RandF) (cfg : Config) (env : Env)
    (rp rn : Nat) (s : String) (hlff : cfg.load_from_file = true)
    (hs : firstMissing env.snap = some s) :
    artifactAbsent env.snap s = true ∧
    load_from_file env.snap = Except.error s ∧
    (load_data R cfg env rp rn).1 = Except.error s ∧
    Step.loaderPass ∉ (load_data R cfg env rp rn).2 ∧
    (cfg.force_recreate = false → (load_data R cfg env rp rn).2 = [Step.snapshotLoad]) := by
  obtain ⟨habs, herr⟩ := firstMissing_error env.snap s hs
  cases hfr : cfg.force_recreate <;>
    simp [load_data, hlff, hfr, regen, herr, habs]

theorem snapshot_load_missing_artifact_witness :
    artifactAbsent envNoTest.snap "test_x.npy" = true ∧
    load_from_file envNoTest.snap = Except.error "test_x.npy" ∧
    (load_data R0 (Config.mk false true false) envNoTest 0 0).1 = Except.error "test_x.npy" ∧
    Step.loaderPass ∉ (load_data R0 (Config.mk false true false) envNoTest 0 0).2 ∧
    (load_data R0 (Config.mk false true false) envNoTest 0 0).2 = [Step.snapshotLoad] := by
  have h := snapshot_load_missing_artifact R0 (Config.mk false true false) envNoTest 0 0
    "test_x.npy" rfl (by decide)
  exact ⟨h.1, h.2.1, h.2.2.1, h.2.2.2.1, h.2.2.2.2 rfl⟩

/-- C2 (amended): `force_recreate` always triggers generation first, but the
snapshot flag is still consulted afterwards: when `load_from_file` is set the
result comes from the snapshot path (never from a loader pass, and with no
regeneration unless forced); only when `load_from_file` is unset is the
result produced by a loader pass, preceded by generation exactly when
`force_recreate` is set or a split's generated layout is absent. -/
theorem load_strategy_precedence (R : RandF) (cfg : Config) (env : Env) (rp rn : Nat) :
    (cfg.force_recreate = true → (load_data R cfg env rp rn).2.head? = some Step.generate) ∧
    (cfg.load_from_file = true →
      (load_data R cfg env rp rn).1 = load_from_file env.snap ∧
      Step.loaderPass ∉ (load_data R cfg env rp rn).2 ∧
      (cfg.force_recreate = false → Step.generate ∉ (load_data R cfg env rp rn).2)) ∧
    (cfg.load_from_file = false →
      (∃ objs, (load_data R cfg env rp rn).1 = Except.ok objs) ∧
      Step.loaderPass ∈ (load_data R cfg env rp rn).2 ∧
      (Step.generate ∈ (load_data R cfg env rp rn).2 ↔
        (cfg.force_recreate = true ∨ env.train_dest_exists = false ∨
          env.test_dest_exists = false))) := by
  obtain ⟨fr, lff, stf⟩ := cfg
  obtain ⟨sn, td, te, tl, sl, ts, ss⟩ := env
  cases fr <;> cases lff <;> cases stf <;> cases td <;> cases te <;>
    simp [load_data, regen]

theorem load_strategy_precedence_witness :
    (load_data R0 (Config.mk false true false) envFull 0 0).1 = load_from_file envFull.snap ∧
    Step.loaderPass ∉ (load_data R0 (Config.mk false true false) envFull 0 0).2 ∧
    Step.generate ∉ (load_data R0 (Config.mk false true false) envFull 0 0).2 := by
  have h := (load_strategy_precedence R0 (Config.mk false true false) envFull 0 0).2.1 rfl
  exact ⟨h.1, h.2.1, h.2.2 rfl⟩

/-- C2 (claim as stated, refuted): with both `force_recreate` and
`load_from_file` set, generation runs but the returned value is produced by
the snapshot path, not by a loader pass over the generated layout — the
snapshot flag takes over even though `force_recreate` is set. -/
theorem force_recreate_loader_result_refuted :
    (Config.mk true true false).force_recreate = true ∧
    (load_data R0 (Config.mk true true false) envFull 0 0).2 =
      [Step.generate, Step.snapshotLoad] ∧
    (load_data R0 (Config.mk true true false) envFull 0 0).1 =
      Except.ok [PyObj.pytuple [[1]], PyObj.pytuple [[2]],
        PyObj.pytuple [[3]], PyObj.pytuple [[4]]] :=
  ⟨rfl, by decide, rfl⟩

/-- C3 (code bug): on the snapshot path `load_data` returns
`map(tuple, [...])` — four tuple values — while the loader pass over the same
environment returns four numpy arrays: the two success paths do not return
the same kind of value. -/
theorem snapshot_path_returns_tuples :
    (load_data R0 (Config.mk false true false) envFull 0 0).1 =
      Except.ok [PyObj.pytuple [[1]], PyObj.pytuple [[2]],
        PyObj.pytuple [[3]], PyObj.pytuple [[4]]] ∧
    (load_data R0 (Config.mk false false false) envFull 0 0).1 =
      Except.ok [PyObj.ndarray [], PyObj.ndarray [], PyObj.ndarray [], PyObj.ndarray []] :=
  ⟨rfl, rfl⟩
